import Mathlib

/-!
Verification development for the single-instance coordination subsystem of
the electron-hta repository (src/index.js, src/app/main.js,
src/unnamed/part_002).

The model is a shallow embedding: the filesystem is a map from path strings
to entries, each launch attempt is a pure function from an environment
(process table, own pid and process name, username, failure flags) and an
initial filesystem to a launch result, and the identity hasher is a full
implementation of MD5 over natural numbers reduced modulo 2^32, matching
the call crypto.createHash applied to the key/user concatenation in
src/index.js line 297.
-/

/- ---------------------------------------------------------------------
   MD5 (the identity hasher used at src/index.js line 297:
   crypto.createHash with algorithm md5, updated with the UTF-8 bytes of
   the string key ++ "." ++ user, digested to lowercase hex).
   Words are Nat values kept below 2^32 by explicit reduction mod 2^32.
   --------------------------------------------------------------------- -/

/-- UTF-8 encoding of a single character, as a list of byte values. -/
def utf8BytesOfChar (c : Char) : List Nat :=
  let n := c.toNat
  if n < 0x80 then [n]
  else if n < 0x800 then [0xc0 + n / 64, 0x80 + n % 64]
  else if n < 0x10000 then
    [0xe0 + n / 4096, 0x80 + (n / 64) % 64, 0x80 + n % 64]
  else
    [0xf0 + n / 262144, 0x80 + (n / 4096) % 64, 0x80 + (n / 64) % 64,
     0x80 + n % 64]

/-- UTF-8 bytes of a string (the byte sequence crypto hashes). -/
def strBytes (s : String) : List Nat :=
  (s.data.map utf8BytesOfChar).flatten

/-- Left rotation of a 32-bit word. -/
def rotl32 (x n : Nat) : Nat :=
  ((x <<< n) ||| (x >>> (32 - n))) % 2 ^ 32

/-- The 64 MD5 round constants of RFC 1321 (floor of 2^32 times the
absolute sine of the round index plus one). -/
def md5K : List Nat :=
  [0xd76aa478, 0xe8c7b756, 0x242070db, 0xc1bdceee,
   0xf57c0faf, 0x4787c62a, 0xa8304613, 0xfd469501,
   0x698098d8, 0x8b44f7af, 0xffff5bb1, 0x895cd7be,
   0x6b901122, 0xfd987193, 0xa679438e, 0x49b40821,
   0xf61e2562, 0xc040b340, 0x265e5a51, 0xe9b6c7aa,
   0xd62f105d, 0x02441453, 0xd8a1e681, 0xe7d3fbc8,
   0x21e1cde6, 0xc33707d6, 0xf4d50d87, 0x455a14ed,
   0xa9e3e905, 0xfcefa3f8, 0x676f02d9, 0x8d2a4c8a,
   0xfffa3942, 0x8771f681, 0x6d9d6122, 0xfde5380c,
   0xa4beea44, 0x4bdecfa9, 0xf6bb4b60, 0xbebfbc70,
   0x289b7ec6, 0xeaa127fa, 0xd4ef3085, 0x04881d05,
   0xd9d4d039, 0xe6db99e5, 0x1fa27cf8, 0xc4ac5665,
   0xf4292244, 0x432aff97, 0xab9423a7, 0xfc93a039,
   0x655b59c3, 0x8f0ccc92, 0xffeff47d, 0x85845dd1,
   0x6fa87e4f, 0xfe2ce6e0, 0xa3014314, 0x4e0811a1,
   0xf7537e82, 0xbd3af235, 0x2ad7d2bb, 0xeb86d391]

/-- The per-round left-rotation amounts of RFC 1321. -/
def md5S : List Nat :=
  [7, 12, 17, 22, 7, 12, 17, 22, 7, 12, 17, 22, 7, 12, 17, 22,
   5, 9, 14, 20, 5, 9, 14, 20, 5, 9, 14, 20, 5, 9, 14, 20,
   4, 11, 16, 23, 4, 11, 16, 23, 4, 11, 16, 23, 4, 11, 16, 23,
   6, 10, 15, 21, 6, 10, 15, 21, 6, 10, 15, 21, 6, 10, 15, 21]

/-- The MD5 nonlinear mixing function for round i on words b, c, d. -/
def md5F (i b c d : Nat) : Nat :=
  if i < 16 then (b &&& c) ||| ((b ^^^ 0xffffffff) &&& d)
  else if i < 32 then (d &&& b) ||| ((d ^^^ 0xffffffff) &&& c)
  else if i < 48 then b ^^^ c ^^^ d
  else c ^^^ (b ||| (d ^^^ 0xffffffff))

/-- The MD5 message-word index used in round i. -/
def md5G (i : Nat) : Nat :=
  if i < 16 then i
  else if i < 32 then (5 * i + 1) % 16
  else if i < 48 then (3 * i + 5) % 16
  else (7 * i) % 16

/-- MD5 padding: append the byte 0x80, zero bytes until the length is
56 mod 64, then the original bit length as eight little-endian bytes. -/
def md5Pad (msg : List Nat) : List Nat :=
  let ml := (8 * msg.length) % 2 ^ 64
  let zeros := (56 + 64 - (msg.length + 1) % 64) % 64
  msg ++ [0x80] ++ List.replicate zeros 0 ++
    (List.range 8).map (fun i => (ml >>> (8 * i)) % 256)

/-- Decode sixteen little-endian 32-bit words from a 64-byte chunk. -/
def md5Words (chunk : List Nat) : List Nat :=
  (List.range 16).map (fun j =>
    chunk.getD (4 * j) 0 + 256 * chunk.getD (4 * j + 1) 0 +
    65536 * chunk.getD (4 * j + 2) 0 + 16777216 * chunk.getD (4 * j + 3) 0)

/-- One MD5 compression step over a 64-byte chunk, updating the running
four-word state. -/
def md5Chunk (st : Nat × Nat × Nat × Nat) (chunk : List Nat) :
    Nat × Nat × Nat × Nat :=
  let M := md5Words chunk
  let res := (List.range 64).foldl
    (fun (w : Nat × Nat × Nat × Nat) i =>
      let a := w.1
      let b := w.2.1
      let c := w.2.2.1
      let d := w.2.2.2
      let f := (md5F i b c d + a + md5K.getD i 0 + M.getD (md5G i) 0) % 2 ^ 32
      (d, (b + rotl32 f (md5S.getD i 0)) % 2 ^ 32, b, c))
    st
  ((st.1 + res.1) % 2 ^ 32, (st.2.1 + res.2.1) % 2 ^ 32,
   (st.2.2.1 + res.2.2.1) % 2 ^ 32, (st.2.2.2 + res.2.2.2) % 2 ^ 32)

/-- Serialize a 32-bit word to four little-endian bytes. -/
def wordLEBytes (w : Nat) : List Nat :=
  (List.range 4).map (fun i => (w >>> (8 * i)) % 256)

/-- The 16-byte MD5 digest of a byte sequence. -/
def md5Bytes (msg : List Nat) : List Nat :=
  let padded := md5Pad msg
  let final := (List.range (padded.length / 64)).foldl
    (fun st i => md5Chunk st ((padded.drop (64 * i)).take 64))
    (0x67452301, 0xefcdab89, 0x98badcfe, 0x10325476)
  wordLEBytes final.1 ++ wordLEBytes final.2.1 ++
    wordLEBytes final.2.2.1 ++ wordLEBytes final.2.2.2

/-- The sixteen lowercase hexadecimal digit characters. -/
def hexRef : List Char := "0123456789abcdef".data

/-- Lowercase hexadecimal digit for a value below 16. -/
def hexDigit (n : Nat) : Char := hexRef.getD n '0'

/-- Two-character lowercase hex rendering of one byte. -/
def byteToHex (b : Nat) : List Char := [hexDigit (b / 16), hexDigit (b % 16)]

/-- Lowercase hex string of a byte sequence (the digest function output
format of the crypto collaborator). -/
def bytesToHex (bs : List Nat) : String :=
  String.mk (bs.map byteToHex).flatten

/-- Lowercase hex MD5 digest of a string, as produced by
crypto.createHash md5, update, digest hex. -/
def md5Hex (s : String) : String := bytesToHex (md5Bytes (strBytes s))

/-- The instance id of src/index.js line 297: the md5 hex digest of the
singleton key, a dot, and the current username. -/
def singletonId (key user : String) : String := md5Hex (key ++ "." ++ user)

/- ---------------------------------------------------------------------
   Filesystem model.
   A filesystem maps path strings to entries; an entry is a regular file
   with string content or a directory. This mirrors exactly what the
   coordination code observes through fs.existsSync, fs.statSync isFile
   and isDirectory, fs.readFileSync, fs.writeFileSync, mkdirp and rimraf.
   --------------------------------------------------------------------- -/

/-- A filesystem entry: a regular file with its content, or a directory. -/
inductive FsEntry where
  | file (content : String)
  | directory
deriving DecidableEq, Repr

/-- A filesystem: a map from path strings to entries. -/
def Fs : Type := String → Option FsEntry

/-- The empty filesystem. -/
def fsEmpty : Fs := fun _ => none

/-- Write a regular file (fs.writeFileSync semantics: create or replace
the whole content). -/
def setFile (fs : Fs) (p content : String) : Fs :=
  fun q => if q = p then some (FsEntry.file content) else fs q

/-- Remove an entry (rimraf.sync semantics; removing an absent entry is
not an error). -/
def eraseEntry (fs : Fs) (p : String) : Fs :=
  fun q => if q = p then none else fs q

/-- Place a directory at a path (mkdirp.sync semantics restricted to the
single path the code passes). -/
def mkdirAt (fs : Fs) (p : String) : Fs :=
  fun q => if q = p then some FsEntry.directory else fs q

/-- Content read by fs.readFileSync with utf8 encoding; the launches only
read paths they have just observed to hold a regular file, so the default
branch is never reached under the hypotheses of the theorems below. -/
def readFileD (fs : Fs) (p : String) : String :=
  match fs p with
  | some (FsEntry.file c) => c
  | _ => ""

/- ---------------------------------------------------------------------
   Environment of one launch attempt.
   --------------------------------------------------------------------- -/

/-- The fields of one entry of the OS process table that the findProcess
helper of src/index.js lines 141 to 148 extracts from the find-process
library result. -/
structure ProcInfo where
  pid : Nat
  ppid : Nat
  name : String
deriving DecidableEq, Repr

/-- Injected filesystem faults, one per fallible filesystem operation the
lock store performs; they model the corresponding syscall failing. -/
structure FsFailures where
  mkdirLocks : Bool
  mkdirComms : Bool
  lockRead : Bool
  lockWrite : Bool
  commWrite : Bool
deriving DecidableEq, Repr

/-- The fault-free environment used by the nominal-behavior claims. -/
def noFailures : FsFailures :=
  { mkdirLocks := false, mkdirComms := false, lockRead := false,
    lockWrite := false, commWrite := false }

/-- The ambient state of one launch attempt: the work directory prefix
(os.tmpdir joined with the application name, src/index.js line 22), the
launching process pid and process name (PROCESS_NAME, line 18), the
current username (os.userInfo, line 25), the OS process table, and the
injected filesystem faults. -/
structure Env where
  workDir : String
  selfPid : Nat
  selfName : String
  user : String
  procs : Nat → Option ProcInfo
  fails : FsFailures

/-- The locks subdirectory (src/index.js line 23). -/
def locksDir (env : Env) : String := env.workDir ++ "/locks"

/-- The comms subdirectory (src/index.js line 24). -/
def commsDir (env : Env) : String := env.workDir ++ "/comms"

/-- The lock record path for an instance id (src/index.js line 300). -/
def lockFilePath (env : Env) (id : String) : String :=
  locksDir env ++ "/" ++ id

/-- The comm record path for an instance id (src/index.js line 301). -/
def commFilePath (env : Env) (id : String) : String :=
  commsDir env ++ "/" ++ id

/-- Decimal parse of the pid string read from a lock record, as the
find-process library coerces its pid argument; a non-numeric string
parses to nothing. -/
def parseDec (s : String) : Option Nat :=
  if s.data ≠ [] ∧ s.data.all (fun c => 48 ≤ c.toNat ∧ c.toNat ≤ 57) then
    some (s.data.foldl (fun n c => 10 * n + (c.toNat - 48)) 0)
  else none

/-- The findProcess helper of src/index.js lines 141 to 148: query the
process table for the pid read from the lock record (a decimal string);
a non-numeric string matches no process. -/
def findProcess (env : Env) (pidStr : String) : Option ProcInfo :=
  match parseDec pidStr with
  | some n => env.procs n
  | none => none

/-- One fallible filesystem operation outcome: the updated filesystem, or
the thrown error together with the filesystem at the time of the throw. -/
inductive FsError where
  | mkdirFailed (dir : String)
  | readFailed (p : String)
  | writeFailed (p : String)
deriving DecidableEq, Repr

/-- The pure effect of forceCreateDirectory (src/index.js lines 155 to
163) when the underlying mkdirp call succeeds: create the directory if
the path is absent, replace a non-directory occupant by a directory,
leave an existing directory alone. -/
def forceCreateDirectoryFs (fs : Fs) (dir : String) : Fs :=
  match fs dir with
  | none => mkdirAt fs dir
  | some (FsEntry.file _) => mkdirAt (eraseEntry fs dir) dir
  | some FsEntry.directory => fs

/-- forceCreateDirectory with an injected mkdirp fault: on fault the
operation throws (mkdirp.sync raises on failure). -/
def forceCreateDirectory (fail : Bool) (fs : Fs) (dir : String) :
    Except (FsError × Fs) Fs :=
  if fail then Except.error (FsError.mkdirFailed dir, fs)
  else Except.ok (forceCreateDirectoryFs fs dir)

/- ---------------------------------------------------------------------
   The singleton coordinator of src/index.js (main IIFE, lines 287-397).

   Sequencing note. The model follows the order of the statements of the
   IIFE: the ready handler that creates the window is registered at line
   276, before the singleton block, and the window-creation, watcher and
   quit events are dispatched only after the probe sequence has finished
   (the event loop dispatches them after the synchronous continuation of
   the IIFE completes).

   Two facts about the runtime collaborators that the model encodes:
   they are properties of the Node and Electron runtime, not of this
   repository, and they decide claims C1 and C4.
   First, fs.writeFileSync and fs.readFileSync take no callback: their
   third and second argument is an options argument, and the runtime
   ignores a function passed in that position, so the error-handling
   callbacks at src/index.js lines 347-353 are dead code and a failing
   write or read raises an exception instead. An exception raised inside
   the async IIFE only rejects its promise; an unhandled rejection in
   this runtime generation prints a warning and the process keeps
   running, so the ready handler registered at line 276 still fires and
   creates a window.
   Second, app.quit with no argument performs a normal quit whose exit
   status is 0.
   --------------------------------------------------------------------- -/

/-- How a launch attempt of src/index.js ends. -/
inductive Outcome where
  | winner
  | loserQuit
  | crashedRejection
  | bypassed
deriving DecidableEq, Repr

/-- The observable result of one launch attempt: the final filesystem,
how the coordination ended, whether a window is created, whether the
comm watcher was armed, whether the winner cleanup handler was armed,
and the exit status the coordination itself requested (none when the
coordination never terminates the process). -/
structure LaunchResult where
  outcome : Outcome
  fs : Fs
  windowCreated : Bool
  watcherArmed : Bool
  onQuitArmed : Bool
  exitCode : Option Nat

/-- Lock acquisition and watcher arming (src/index.js lines 344-389):
write the own pid to the lock record, arm the comm watcher and the quit
cleanup handler, and proceed to window creation. -/
def acquireAndWatch (env : Env) (lockFile : String) (fs : Fs) :
    Except (FsError × Fs) LaunchResult :=
  if env.fails.lockWrite then Except.error (FsError.writeFailed lockFile, fs)
  else Except.ok
    { outcome := Outcome.winner,
      fs := setFile fs lockFile (toString env.selfPid),
      windowCreated := true, watcherArmed := true, onQuitArmed := true,
      exitCode := none }

/-- The singleton block of src/index.js lines 287-390, threading thrown
filesystem errors through Except. -/
def singletonProbe (env : Env) (key : String) (fs0 : Fs) :
    Except (FsError × Fs) LaunchResult :=
  let sid := singletonId key env.user
  let lockFile := lockFilePath env sid
  let commFile := commFilePath env sid
  match forceCreateDirectory env.fails.mkdirLocks fs0 (locksDir env) with
  | Except.error e => Except.error e
  | Except.ok fs1 =>
    match forceCreateDirectory env.fails.mkdirComms fs1 (commsDir env) with
    | Except.error e => Except.error e
    | Except.ok fs2 =>
      match fs2 lockFile with
      | none => acquireAndWatch env lockFile fs2
      | some FsEntry.directory =>
        acquireAndWatch env lockFile (eraseEntry fs2 lockFile)
      | some (FsEntry.file pidStr) =>
        if env.fails.lockRead then
          Except.error (FsError.readFailed lockFile, fs2)
        else
          match findProcess env pidStr with
          | some proc =>
            if proc.name = env.selfName then
              if env.fails.commWrite then
                Except.error (FsError.writeFailed commFile, fs2)
              else
                Except.ok
                  { outcome := Outcome.loserQuit,
                    fs := setFile fs2 commFile "focus\n",
                    windowCreated := false, watcherArmed := false,
                    onQuitArmed := false, exitCode := some 0 }
            else acquireAndWatch env lockFile (eraseEntry fs2 lockFile)
          | none => acquireAndWatch env lockFile (eraseEntry fs2 lockFile)

/-- One launch attempt of src/index.js. A falsy singleton argument (no
key, or the empty string) bypasses the coordinator entirely; a thrown
filesystem error rejects the IIFE promise, the process keeps running and
the ready handler registered at line 276 still creates a window. -/
def launchIndexJs (env : Env) (singleton : Option String) (fs0 : Fs) :
    LaunchResult :=
  let bypass : LaunchResult :=
    { outcome := Outcome.bypassed, fs := fs0, windowCreated := true,
      watcherArmed := false, onQuitArmed := false, exitCode := none }
  match singleton with
  | none => bypass
  | some key =>
    if key = "" then bypass
    else
      match singletonProbe env key fs0 with
      | Except.ok r => r
      | Except.error (_, fsE) =>
        { outcome := Outcome.crashedRejection, fs := fsE,
          windowCreated := true, watcherArmed := false,
          onQuitArmed := false, exitCode := none }

/-- The winner quit handler of src/index.js lines 378-388: remove the
lock record, then the comm record. -/
def winnerOnQuit (env : Env) (key : String) (fs : Fs) : Fs :=
  let sid := singletonId key env.user
  eraseEntry (eraseEntry fs (lockFilePath env sid)) (commFilePath env sid)

/-- The comm-channel send of src/index.js line 326: fs.writeFileSync of
the single token focus followed by a newline. -/
def commSend (fs : Fs) (commFile : String) : Fs :=
  setFile fs commFile "focus\n"

/- ---------------------------------------------------------------------
   The comm watcher drain of src/index.js lines 361-376.
   --------------------------------------------------------------------- -/

/-- Split of a character list at every occurrence of a separator, the
JavaScript String split semantics for a one-character separator: the
separator is dropped and empty segments are kept. -/
def splitCharList (sep : Char) : List Char → List (List Char)
  | [] => [[]]
  | c :: rest =>
    let r := splitCharList sep rest
    if c = sep then [] :: r
    else (c :: r.headD []) :: r.tail

/-- The JavaScript split of a string on the newline character, as
content.split at src/index.js line 363 performs it. -/
def jsSplitNewline (s : String) : List String :=
  (splitCharList (Char.ofNat 10) s.data).map String.mk

/-- The action list the drain iterates over: src/index.js line 363
splits a truthy content on newline, and a falsy (empty) content yields
null, over which the loop does not run. -/
def commActions (content : String) : List String :=
  if content = "" then [] else jsSplitNewline content

/-- The loop indices at which the drain loop of src/index.js lines
365-369 invokes focusApp: exactly the positions whose token is focus. -/
def focusIndices (actions : List String) : List Nat :=
  (List.range actions.length).filter (fun i => actions.getD i "" == "focus")

/-- The handler onCommFileChange (src/index.js lines 361-372): read the
full record content, dispatch focusApp at every focus token, then delete
the record. Returns the dispatch-invocation positions and the updated
filesystem. -/
def onCommFileChange (fs : Fs) (path : String) : List Nat × Fs :=
  let content := readFileD fs path
  (focusIndices (commActions content), eraseEntry fs path)

/-- One watch event for the comm record: an external writer creates or
replaces the record with the given content (the add or change event
chokidar reports at src/index.js lines 374-376), then the handler
drains it. -/
def commEventStep (path : String) (fs : Fs) (content : String) :
    List Nat × Fs :=
  onCommFileChange (setFile fs path content) path

/-- Sequential processing of a list of watch events, accumulating the
dispatch positions of each drain. -/
def processCommEvents (path : String) (fs : Fs) (events : List String) :
    List (List Nat) × Fs :=
  match events with
  | [] => ([], fs)
  | e :: rest =>
    let step := commEventStep path fs e
    let next := processCommEvents path step.2 rest
    (step.1 :: next.1, next.2)

/- ---------------------------------------------------------------------
   The zoom clamp of src/index.js line 192.
   JavaScript numbers are modelled as either NaN or a rational; the only
   values reaching the clamp are the yargs number parse of the zoom
   option (default 1 when the option is absent, NaN when unparsable).
   The conditional chain is: a falsy zoom (0 or NaN) yields 1, a zoom
   greater than 5 yields 5, a zoom below 0.25 yields 0.25, anything else
   passes through.
   --------------------------------------------------------------------- -/

/-- A JavaScript number: NaN or a rational value. -/
inductive JsNum where
  | nan
  | num (q : ℚ)
deriving DecidableEq

/-- The zoom clamp of src/index.js line 192, by case analysis on the
JavaScript conditional chain: NaN and 0 are falsy, so the first branch
yields 1 for both; every NaN comparison is false, but NaN never reaches
the comparisons because it is falsy. -/
def zoomFactor : JsNum → ℚ
  | JsNum.nan => 1
  | JsNum.num q =>
    if q = 0 then 1
    else if q > 5 then 5
    else if q < 1 / 4 then 1 / 4
    else q

/- ---------------------------------------------------------------------
   The in-memory window reference of src/index.js (lines 208-274).
   Window operations go through an explicit dereference that faults on a
   null reference, exactly as a JavaScript member access on null would;
   the theorems show the guarded handlers never reach the fault.
   --------------------------------------------------------------------- -/

/-- A JavaScript runtime fault. -/
inductive JsFault where
  | nullDeref
deriving DecidableEq, Repr

/-- The window-owning state of the main IIFE: the nullable window
reference (let win = null, line 208), the number of app.focus calls
performed, and the trace of operations performed on a window handle. -/
structure WinState where
  win : Option Nat
  appFocusCalls : Nat
  winOps : List (Nat × String)
deriving DecidableEq, Repr

/-- The state at the top of the IIFE: no window yet. -/
def initialWinState : WinState :=
  { win := none, appFocusCalls := 0, winOps := [] }

/-- Member access on the window reference: faults on null. -/
def derefWin (w : Option Nat) : Except JsFault Nat :=
  match w with
  | none => Except.error JsFault.nullDeref
  | some h => Except.ok h

/-- The loadURL helper of src/index.js lines 209-213: only calls into
the window when the reference is truthy. -/
def loadURLHelper (st : WinState) (url : String) : Except JsFault WinState :=
  if st.win.isSome then
    match derefWin st.win with
    | Except.error e => Except.error e
    | Except.ok h =>
      Except.ok { st with winOps := st.winOps ++ [(h, "loadURL:" ++ url)] }
  else Except.ok st

/-- The focusApp handler of src/index.js lines 263-274: always performs
the application-level focus, then operates on the window only when the
reference is truthy (with the minimize workaround on win32). -/
def focusApp (win32 : Bool) (st : WinState) : Except JsFault WinState :=
  let st1 := { st with appFocusCalls := st.appFocusCalls + 1 }
  if st1.win.isSome then
    match derefWin st1.win with
    | Except.error e => Except.error e
    | Except.ok h =>
      let ops := (if win32 then [(h, "minimize")] else []) ++ [(h, "focus")]
      Except.ok { st1 with winOps := st1.winOps ++ ops }
  else Except.ok st1

/-- The close handler of src/index.js lines 240-243: reset the window
reference to null. -/
def closeHandler (st : WinState) : WinState := { st with win := none }

/-- Window creation (src/index.js line 217): store the fresh handle in
the reference. -/
def createWindowState (st : WinState) (h : Nat) : WinState :=
  { st with win := some h }

/- ---------------------------------------------------------------------
   The stale-lock probe of src/app/main.js (lines 159-210).
   Its findProcess helper (lines 94-97) returns null when the process
   table has no entry for the pid, and line 185 reads proc.name without
   a null guard, so the member access is modelled through the faulting
   dereference.
   --------------------------------------------------------------------- -/

/-- The result of the src/app/main.js singleton block when it does not
fault: the outcome, the final filesystem, whether a window will be
created (the ready handler of main.js is registered only after the
probe, at line 205), and the exit code requested through process.exit. -/
structure MainJsResult where
  outcome : Outcome
  fs : Fs
  windowCreated : Bool
  exitCode : Option Nat

/-- Member access proc.name on the findProcess result (src/app/main.js
line 185): main.js applies it without a null guard, so a null result
(pid absent from the process table) faults. -/
def derefProcName (proc : Option ProcInfo) : Except JsFault String :=
  match proc with
  | none => Except.error JsFault.nullDeref
  | some p => Except.ok p.name

/-- The singleton block of src/app/main.js lines 161-210 for a launch
whose singleton flag is set, threading a thrown fault together with the
filesystem at the time of the throw. The lock lives at the raw
singleton-id segment under the hta-locks work directory; a malformed or
stale lock falls through to the unconditional acquisition at line 198;
the readFileSync and writeFileSync callbacks at lines 178 and 198 are
options-position arguments the runtime ignores. -/
def mainJsSingleton (env : Env) (tmpDir sid : String) (fs0 : Fs) :
    Except (JsFault × Fs) MainJsResult :=
  let fs1 := forceCreateDirectoryFs fs0 tmpDir
  let htaLock := tmpDir ++ "/" ++ sid
  let acquire : Fs → MainJsResult := fun fs =>
    { outcome := Outcome.winner,
      fs := setFile fs htaLock (toString env.selfPid),
      windowCreated := true, exitCode := none }
  match fs1 htaLock with
  | none => Except.ok (acquire fs1)
  | some FsEntry.directory => Except.ok (acquire (eraseEntry fs1 htaLock))
  | some (FsEntry.file pidStr) =>
    match derefProcName (findProcess env pidStr) with
    | Except.error e => Except.error (e, fs1)
    | Except.ok name =>
      if name = "electron" then
        Except.ok
          { outcome := Outcome.loserQuit, fs := fs1,
            windowCreated := false, exitCode := some 1 }
      else Except.ok (acquire (eraseEntry fs1 htaLock))

/-- One launch of the src/app/main.js singleton path. A fault inside the
async IIFE rejects its promise; the process neither reclaims the lock
nor registers the ready handler (registration happens only at line 205,
after the probe), so no window is created and no exit code is set. -/
def mainJsLaunch (env : Env) (tmpDir sid : String) (fs0 : Fs) :
    MainJsResult :=
  match mainJsSingleton env tmpDir sid fs0 with
  | Except.ok r => r
  | Except.error (_, fsE) =>
    { outcome := Outcome.crashedRejection, fs := fsE,
      windowCreated := false, exitCode := none }

/- ---------------------------------------------------------------------
   The lock path of src/unnamed/part_002 (lines 170-217).
   This variant derives the lock path directly from the raw singleton
   key (line 175: paths.join of LOCKS_DIR and singleton); no hashing is
   applied and the current username plays no role.
   --------------------------------------------------------------------- -/

/-- The lock record path of src/unnamed/part_002 line 175: the work
directory electron-hta/locks under the OS temporary directory, joined
with the raw singleton key. -/
def part002LockFile (tmpdir key : String) : String :=
  tmpdir ++ "/electron-hta" ++ "/locks" ++ "/" ++ key

/-- The instance-id derivation of the part_002 variant as a function of
the launch parameters key and user: the path segment scoping the lock is
the raw singleton key itself, and the username is not consulted
(src/unnamed/part_002 line 175). -/
def part002InstanceSegment (key : String) (_user : String) : String := key

/- ---------------------------------------------------------------------
   Concrete launch scenarios used by the closed theorems and witnesses.
   --------------------------------------------------------------------- -/

/-- The process-table entry of a live owner that is the same
application. -/
def procLoser : ProcInfo := { pid := 4242, ppid := 1, name := "electron-hta" }

/-- A launch environment whose lock owner pid 4242 is alive and carries
this application name. -/
def envLoser : Env :=
  { workDir := "/tmp/electron-hta", selfPid := 77,
    selfName := "electron-hta", user := "alice",
    procs := fun n => if n = 4242 then some procLoser else none,
    fails := noFailures }

/-- The lock record path of the envLoser scenario. -/
def lockPathLoser : String :=
  lockFilePath envLoser (singletonId "demo" "alice")

/-- A filesystem holding only the live-owner lock record. -/
def fsLoser : Fs := setFile fsEmpty lockPathLoser "4242"

/-- An environment whose lock owner pid 5000 is alive but belongs to a
different program. -/
def envForeign : Env :=
  { workDir := "/tmp/electron-hta", selfPid := 91,
    selfName := "electron-hta", user := "alice",
    procs := fun n =>
      if n = 5000 then some { pid := 5000, ppid := 1, name := "chrome" }
      else none,
    fails := noFailures }

/-- The lock record path of the envForeign scenario. -/
def lockPathForeign : String :=
  lockFilePath envForeign (singletonId "demo" "alice")

/-- A filesystem holding only the foreign-owner lock record. -/
def fsForeign : Fs := setFile fsEmpty lockPathForeign "5000"

/-- An environment whose process table is empty: every recorded pid is
dead. -/
def envStale : Env :=
  { workDir := "/tmp/electron-hta", selfPid := 88,
    selfName := "electron", user := "carol",
    procs := fun _ => none, fails := noFailures }

/-- The stale lock record of the src/app/main.js scenario, at the raw
singleton-id segment under the hta-locks work directory. -/
def fsStaleMain : Fs := setFile fsEmpty "/tmp/hta-locks/kiosk" "4242"

/-- The stale lock record of the src/index.js scenario, at the hashed
instance id of key kiosk and user carol. -/
def fsStaleIdx : Fs :=
  setFile fsEmpty (lockFilePath envStale (singletonId "kiosk" "carol")) "4242"

/-- An environment whose lock-record write fails (for example a
read-only locks directory). -/
def envWriteFail : Env :=
  { workDir := "/tmp/electron-hta", selfPid := 92,
    selfName := "electron-hta", user := "dave",
    procs := fun _ => none,
    fails := { noFailures with lockWrite := true } }

/-- An environment in which the locks work directory cannot be
created. -/
def envMkdirFail : Env :=
  { workDir := "/tmp/electron-hta", selfPid := 93,
    selfName := "electron-hta", user := "dave",
    procs := fun _ => none,
    fails := { noFailures with mkdirLocks := true } }

/-- A fault-free environment for the winner lifecycle scenario. -/
def envWinnerA : Env :=
  { workDir := "/tmp/electron-hta", selfPid := 77,
    selfName := "electron-hta", user := "erin",
    procs := fun _ => none, fails := noFailures }

/-- A later fault-free launch by the same user on the same machine. -/
def envWinnerB : Env :=
  { workDir := "/tmp/electron-hta", selfPid := 78,
    selfName := "electron-hta", user := "erin",
    procs := fun _ => none, fails := noFailures }

/-- The filesystem of a running winner at quit time: its own lock record
plus an undrained comm record. -/
def fsQuitDemo : Fs :=
  setFile
    (setFile fsEmpty (lockFilePath envWinnerA (singletonId "demo" "erin")) "77")
    (commFilePath envWinnerA (singletonId "demo" "erin")) "focus\n"

/-- A comm record observed by the watcher with two focus tokens around
an unknown token. -/
def fsCommDemo : Fs :=
  setFile fsEmpty "/tmp/electron-hta/comms/c" "focus\nquit\nfocus\n"

/- ---------------------------------------------------------------------
   Helper lemmas about the filesystem model and the involved paths.
   --------------------------------------------------------------------- -/

theorem setFile_self (fs : Fs) (p c : String) :
    setFile fs p c p = some (FsEntry.file c) := by
  simp [setFile]

theorem setFile_ne (fs : Fs) (p c q : String) (h : q ≠ p) :
    setFile fs p c q = fs q := by
  simp [setFile, h]

theorem eraseEntry_self (fs : Fs) (p : String) : eraseEntry fs p p = none := by
  simp [eraseEntry]

theorem eraseEntry_ne (fs : Fs) (p q : String) (h : q ≠ p) :
    eraseEntry fs p q = fs q := by
  simp [eraseEntry, h]

theorem forceCreateDirectoryFs_ne (fs : Fs) (dir q : String) (h : q ≠ dir) :
    forceCreateDirectoryFs fs dir q = fs q := by
  unfold forceCreateDirectoryFs
  cases hd : fs dir with
  | none => simp [mkdirAt, h]
  | some e => cases e <;> simp [mkdirAt, eraseEntry, h]

theorem length_slashSeg : ("/" : String).length = 1 := rfl

theorem length_locksSeg : ("/locks" : String).length = 6 := rfl

theorem length_commsSeg : ("/comms" : String).length = 6 := rfl

theorem lockFilePath_ne_locksDir (env : Env) (id : String) :
    lockFilePath env id ≠ locksDir env := by
  intro h
  have hl := congrArg String.length h
  simp only [lockFilePath, locksDir, String.length_append, length_slashSeg,
    length_locksSeg] at hl
  omega

theorem lockFilePath_ne_commsDir (env : Env) (id : String) :
    lockFilePath env id ≠ commsDir env := by
  intro h
  have hl := congrArg String.length h
  simp only [lockFilePath, locksDir, commsDir, String.length_append,
    length_slashSeg, length_locksSeg, length_commsSeg] at hl
  omega

theorem commFilePath_ne_locksDir (env : Env) (id : String) :
    commFilePath env id ≠ locksDir env := by
  intro h
  have hl := congrArg String.length h
  simp only [commFilePath, locksDir, commsDir, String.length_append,
    length_slashSeg, length_locksSeg, length_commsSeg] at hl
  omega

theorem commFilePath_ne_commsDir (env : Env) (id : String) :
    commFilePath env id ≠ commsDir env := by
  intro h
  have hl := congrArg String.length h
  simp only [commFilePath, commsDir, String.length_append, length_slashSeg,
    length_commsSeg] at hl
  omega

theorem lockFilePath_ne_commFilePath (env : Env) (id : String) :
    lockFilePath env id ≠ commFilePath env id := by
  intro h
  have hd := congrArg String.data h
  simp only [lockFilePath, commFilePath, locksDir, commsDir,
    String.data_append, List.append_assoc] at hd
  have h2 := List.append_cancel_left hd
  have h3 := List.append_cancel_right h2
  exact absurd h3 (by decide)

set_option maxRecDepth 100000 in
/-- Claim C1 counterexample: with a lock record held by a live
same-application process, the src/index.js launch reaches the LOSER
branch, writes the single focus token and creates no window, but its
termination goes through app.quit, whose exit status is 0, not the
non-zero status the claim requires. -/
theorem loser_branch_exits_zero_cex :
    (launchIndexJs envLoser (some "demo") fsLoser).outcome = Outcome.loserQuit
    ∧ (launchIndexJs envLoser (some "demo") fsLoser).fs
        (commFilePath envLoser (singletonId "demo" "alice"))
        = some (FsEntry.file "focus\n")
    ∧ (launchIndexJs envLoser (some "demo") fsLoser).windowCreated = false
    ∧ (launchIndexJs envLoser (some "demo") fsLoser).exitCode = some 0 := by
  refine ⟨rfl, ?_, rfl, rfl⟩
  rfl

/-- Reduction of a fault-free launch whose lock record holds the pid of
a live same-application process: the full LOSER result record. -/
theorem launch_loser_eq (env : Env) (key pidStr : String) (proc : ProcInfo)
    (fs0 : Fs) (hfail : env.fails = noFailures) (hkey : ¬ key = "")
    (hlock : fs0 (lockFilePath env (singletonId key env.user))
      = some (FsEntry.file pidStr))
    (hproc : findProcess env pidStr = some proc)
    (hname : proc.name = env.selfName) :
    launchIndexJs env (some key) fs0 =
      { outcome := Outcome.loserQuit,
        fs := setFile
          (forceCreateDirectoryFs
            (forceCreateDirectoryFs fs0 (locksDir env)) (commsDir env))
          (commFilePath env (singletonId key env.user)) "focus\n",
        windowCreated := false, watcherArmed := false,
        onQuitArmed := false, exitCode := some 0 } := by
  have hfs2 : forceCreateDirectoryFs
      (forceCreateDirectoryFs fs0 (locksDir env)) (commsDir env)
      (lockFilePath env (singletonId key env.user))
      = some (FsEntry.file pidStr) := by
    rw [forceCreateDirectoryFs_ne _ _ _ (lockFilePath_ne_commsDir env _),
        forceCreateDirectoryFs_ne _ _ _ (lockFilePath_ne_locksDir env _),
        hlock]
  unfold launchIndexJs singletonProbe
  simp only [if_neg hkey, hfail, noFailures, forceCreateDirectory,
    Bool.false_eq_true, if_false, hfs2, hproc, if_pos hname]

/-- Reduction of a fault-free launch that observes no lock record: the
full WINNER result record. -/
theorem launch_winner_absent_eq (env : Env) (key : String) (fs0 : Fs)
    (hfail : env.fails = noFailures) (hkey : ¬ key = "")
    (hlock : fs0 (lockFilePath env (singletonId key env.user)) = none) :
    launchIndexJs env (some key) fs0 =
      { outcome := Outcome.winner,
        fs := setFile
          (forceCreateDirectoryFs
            (forceCreateDirectoryFs fs0 (locksDir env)) (commsDir env))
          (lockFilePath env (singletonId key env.user))
          (toString env.selfPid),
        windowCreated := true, watcherArmed := true, onQuitArmed := true,
        exitCode := none } := by
  have hfs2 : forceCreateDirectoryFs
      (forceCreateDirectoryFs fs0 (locksDir env)) (commsDir env)
      (lockFilePath env (singletonId key env.user)) = none := by
    rw [forceCreateDirectoryFs_ne _ _ _ (lockFilePath_ne_commsDir env _),
        forceCreateDirectoryFs_ne _ _ _ (lockFilePath_ne_locksDir env _),
        hlock]
  unfold launchIndexJs singletonProbe acquireAndWatch
  simp only [if_neg hkey, hfail, noFailures, forceCreateDirectory,
    Bool.false_eq_true, if_false, hfs2]

/-- Reduction of a fault-free launch whose lock record holds the pid of
a live process of a different program: the lock is reclaimed and the
launch becomes the WINNER. -/
theorem launch_winner_foreign_eq (env : Env) (key pidStr : String)
    (proc : ProcInfo) (fs0 : Fs)
    (hfail : env.fails = noFailures) (hkey : ¬ key = "")
    (hlock : fs0 (lockFilePath env (singletonId key env.user))
      = some (FsEntry.file pidStr))
    (hproc : findProcess env pidStr = some proc)
    (hname : ¬ proc.name = env.selfName) :
    launchIndexJs env (some key) fs0 =
      { outcome := Outcome.winner,
        fs := setFile
          (eraseEntry
            (forceCreateDirectoryFs
              (forceCreateDirectoryFs fs0 (locksDir env)) (commsDir env))
            (lockFilePath env (singletonId key env.user)))
          (lockFilePath env (singletonId key env.user))
          (toString env.selfPid),
        windowCreated := true, watcherArmed := true, onQuitArmed := true,
        exitCode := none } := by
  have hfs2 : forceCreateDirectoryFs
      (forceCreateDirectoryFs fs0 (locksDir env)) (commsDir env)
      (lockFilePath env (singletonId key env.user))
      = some (FsEntry.file pidStr) := by
    rw [forceCreateDirectoryFs_ne _ _ _ (lockFilePath_ne_commsDir env _),
        forceCreateDirectoryFs_ne _ _ _ (lockFilePath_ne_locksDir env _),
        hlock]
  unfold launchIndexJs singletonProbe acquireAndWatch
  simp only [if_neg hkey, hfail, noFailures, forceCreateDirectory,
    Bool.false_eq_true, if_false, hfs2, hproc, if_neg hname]

/-- Reduction of a fault-free launch whose lock record holds a pid that
matches no live process: the stale lock is reclaimed and the launch
becomes the WINNER. -/
theorem launch_winner_stale_eq (env : Env) (key pidStr : String) (fs0 : Fs)
    (hfail : env.fails = noFailures) (hkey : ¬ key = "")
    (hlock : fs0 (lockFilePath env (singletonId key env.user))
      = some (FsEntry.file pidStr))
    (hproc : findProcess env pidStr = none) :
    launchIndexJs env (some key) fs0 =
      { outcome := Outcome.winner,
        fs := setFile
          (eraseEntry
            (forceCreateDirectoryFs
              (forceCreateDirectoryFs fs0 (locksDir env)) (commsDir env))
            (lockFilePath env (singletonId key env.user)))
          (lockFilePath env (singletonId key env.user))
          (toString env.selfPid),
        windowCreated := true, watcherArmed := true, onQuitArmed := true,
        exitCode := none } := by
  have hfs2 : forceCreateDirectoryFs
      (forceCreateDirectoryFs fs0 (locksDir env)) (commsDir env)
      (lockFilePath env (singletonId key env.user))
      = some (FsEntry.file pidStr) := by
    rw [forceCreateDirectoryFs_ne _ _ _ (lockFilePath_ne_commsDir env _),
        forceCreateDirectoryFs_ne _ _ _ (lockFilePath_ne_locksDir env _),
        hlock]
  unfold launchIndexJs singletonProbe acquireAndWatch
  simp only [if_neg hkey, hfail, noFailures, forceCreateDirectory,
    Bool.false_eq_true, if_false, hfs2, hproc]

/-- Claim C1, amended: with a lock record held by a live
same-application process, a fault-free src/index.js launch reaches
LOSER, leaves the comm record holding exactly the single focus token,
creates no window, and terminates through app.quit with exit status 0
(the claim as frozen requires a non-zero status; the observed status of
app.quit is 0). -/
theorem loser_branch_behavior (env : Env) (key pidStr : String)
    (proc : ProcInfo) (fs0 : Fs)
    (hfail : env.fails = noFailures) (hkey : ¬ key = "")
    (hlock : fs0 (lockFilePath env (singletonId key env.user))
      = some (FsEntry.file pidStr))
    (hproc : findProcess env pidStr = some proc)
    (hname : proc.name = env.selfName) :
    (launchIndexJs env (some key) fs0).outcome = Outcome.loserQuit
    ∧ (launchIndexJs env (some key) fs0).fs
        (commFilePath env (singletonId key env.user))
        = some (FsEntry.file "focus\n")
    ∧ ((commActions "focus\n").filter (fun t => t == "focus")).length = 1
    ∧ (launchIndexJs env (some key) fs0).windowCreated = false
    ∧ (launchIndexJs env (some key) fs0).exitCode = some 0 := by
  rw [launch_loser_eq env key pidStr proc fs0 hfail hkey hlock hproc hname]
  exact ⟨rfl, setFile_self _ _ _, by decide, rfl, rfl⟩

set_option maxRecDepth 100000 in
/-- Witness for the amended claim C1 at the concrete live-owner
scenario. -/
theorem loser_branch_behavior_witness :
    (fsLoser (lockFilePath envLoser (singletonId "demo" "alice"))
      = some (FsEntry.file "4242"))
    ∧ (launchIndexJs envLoser (some "demo") fsLoser).outcome
        = Outcome.loserQuit
    ∧ (launchIndexJs envLoser (some "demo") fsLoser).exitCode = some 0 := by
  have h := loser_branch_behavior envLoser "demo" "4242" procLoser fsLoser
    rfl (by decide) (setFile_self fsEmpty lockPathLoser "4242") rfl rfl
  exact ⟨setFile_self fsEmpty lockPathLoser "4242", h.1, h.2.2.2.2⟩

/-- Claim C5: with a lock record held by a live process of a different
program, a fault-free src/index.js launch treats the owner as not alive
(the name comparison at line 323 fails), reclaims the record and
becomes the WINNER, rewriting the lock with its own pid. -/
theorem foreign_process_reclaims_winner (env : Env) (key pidStr : String)
    (proc : ProcInfo) (fs0 : Fs)
    (hfail : env.fails = noFailures) (hkey : ¬ key = "")
    (hlock : fs0 (lockFilePath env (singletonId key env.user))
      = some (FsEntry.file pidStr))
    (hproc : findProcess env pidStr = some proc)
    (hname : ¬ proc.name = env.selfName) :
    (launchIndexJs env (some key) fs0).outcome = Outcome.winner
    ∧ (launchIndexJs env (some key) fs0).fs
        (lockFilePath env (singletonId key env.user))
        = some (FsEntry.file (toString env.selfPid))
    ∧ (launchIndexJs env (some key) fs0).windowCreated = true
    ∧ (launchIndexJs env (some key) fs0).watcherArmed = true := by
  rw [launch_winner_foreign_eq env key pidStr proc fs0 hfail hkey hlock
    hproc hname]
  exact ⟨rfl, setFile_self _ _ _, rfl, rfl⟩

set_option maxRecDepth 100000 in
/-- Witness for claim C5 at the concrete foreign-owner scenario. -/
theorem foreign_process_reclaims_winner_witness :
    (fsForeign (lockFilePath envForeign (singletonId "demo" "alice"))
      = some (FsEntry.file "5000"))
    ∧ (launchIndexJs envForeign (some "demo") fsForeign).outcome
        = Outcome.winner
    ∧ (launchIndexJs envForeign (some "demo") fsForeign).fs
        (lockFilePath envForeign (singletonId "demo" "alice"))
        = some (FsEntry.file "91") := by
  have h := foreign_process_reclaims_winner envForeign "demo" "5000"
    { pid := 5000, ppid := 1, name := "chrome" } fsForeign
    rfl (by decide) (setFile_self fsEmpty lockPathForeign "5000") rfl
    (by decide)
  exact ⟨setFile_self fsEmpty lockPathForeign "5000", h.1, h.2.1⟩

set_option maxRecDepth 100000 in
/-- Claim C2 (code bug in src/app/main.js): with a stale lock record
whose pid 4242 matches no live process, the src/index.js launch
reclaims the record and becomes the WINNER with its own pid in the
lock, but the src/app/main.js launch faults at line 185 with a null
dereference (its findProcess returned null and proc.name is read
without a guard): the probe crashes, the stale lock record is left in
place, and no window is created. -/
theorem mainJs_stale_lock_crash :
    (mainJsLaunch envStale "/tmp/hta-locks" "kiosk" fsStaleMain).outcome
      = Outcome.crashedRejection
    ∧ (mainJsLaunch envStale "/tmp/hta-locks" "kiosk" fsStaleMain).fs
        "/tmp/hta-locks/kiosk" = some (FsEntry.file "4242")
    ∧ (mainJsLaunch envStale "/tmp/hta-locks" "kiosk"
        fsStaleMain).windowCreated = false
    ∧ (launchIndexJs envStale (some "kiosk") fsStaleIdx).outcome
        = Outcome.winner
    ∧ (launchIndexJs envStale (some "kiosk") fsStaleIdx).fs
        (lockFilePath envStale (singletonId "kiosk" "carol"))
        = some (FsEntry.file "88") := by
  refine ⟨rfl, ?_, rfl, ?_, ?_⟩ <;> rfl

set_option maxRecDepth 100000 in
/-- Claim C4 (code bug in src/index.js): when the lock record cannot be
written, or the locks directory cannot be created, the launch does not
terminate with an error: the writeFileSync error callback at lines
347-353 is an ignored options-position argument and never runs, the
thrown error only rejects the IIFE promise, and the ready handler
registered at line 276 still creates a window although no lock record
exists. -/
theorem lock_write_failure_creates_window :
    (launchIndexJs envWriteFail (some "demo") fsEmpty).outcome
      = Outcome.crashedRejection
    ∧ (launchIndexJs envWriteFail (some "demo") fsEmpty).windowCreated = true
    ∧ (launchIndexJs envWriteFail (some "demo") fsEmpty).exitCode = none
    ∧ (launchIndexJs envWriteFail (some "demo") fsEmpty).fs
        (lockFilePath envWriteFail (singletonId "demo" "dave")) = none
    ∧ (launchIndexJs envMkdirFail (some "demo") fsEmpty).outcome
        = Outcome.crashedRejection
    ∧ (launchIndexJs envMkdirFail (some "demo") fsEmpty).windowCreated = true
    ∧ (launchIndexJs envMkdirFail (some "demo") fsEmpty).exitCode = none := by
  refine ⟨rfl, rfl, rfl, ?_, rfl, rfl, rfl⟩
  rfl

/-- Reduction of launchIndexJs for a truthy singleton key to the match
on the probe result. -/
theorem launchIndexJs_some_ne (env : Env) (key : String) (fs0 : Fs)
    (hk : ¬ key = "") :
    launchIndexJs env (some key) fs0 =
      match singletonProbe env key fs0 with
      | Except.ok r => r
      | Except.error (_, fsE) =>
        { outcome := Outcome.crashedRejection, fs := fsE,
          windowCreated := true, watcherArmed := false,
          onQuitArmed := false, exitCode := none } := by
  unfold launchIndexJs
  simp [hk]

/-- Structural inventory of the fault-free results of the singleton
probe: an ok result is either the acquiring WINNER record (window,
watcher and quit cleanup armed) or the LOSER record. -/
theorem singletonProbe_ok_shape (env : Env) (key : String) (fs0 : Fs)
    (r : LaunchResult) (h : singletonProbe env key fs0 = Except.ok r) :
    (r.outcome = Outcome.winner ∧ r.onQuitArmed = true
      ∧ r.watcherArmed = true ∧ r.windowCreated = true)
    ∨ (r.outcome = Outcome.loserQuit ∧ r.onQuitArmed = false) := by
  unfold singletonProbe acquireAndWatch at h
  dsimp only at h
  repeat' split at h
  all_goals first
    | exact Except.noConfusion h
    | (injection h with h2; subst h2; simp)

/-- A launch that ends as the WINNER has armed the quit cleanup
handler. -/
theorem launch_winner_armed (env : Env) (key : String) (fs0 : Fs)
    (hwin : (launchIndexJs env (some key) fs0).outcome = Outcome.winner) :
    (launchIndexJs env (some key) fs0).onQuitArmed = true := by
  by_cases hk : key = ""
  · rw [show launchIndexJs env (some key) fs0
      = { outcome := Outcome.bypassed, fs := fs0, windowCreated := true,
          watcherArmed := false, onQuitArmed := false, exitCode := none }
      from by unfold launchIndexJs; simp [hk]] at hwin
    cases hwin
  · rw [launchIndexJs_some_ne env key fs0 hk] at hwin ⊢
    cases hp : singletonProbe env key fs0 with
    | ok r =>
      simp only [hp] at hwin ⊢
      rcases singletonProbe_ok_shape env key fs0 r hp with
        ⟨_, h2, _, _⟩ | ⟨h1, _⟩
      · exact h2
      · rw [h1] at hwin; cases hwin
    | error e =>
      obtain ⟨e1, e2⟩ := e
      simp only [hp] at hwin
      cases hwin

/-- The winner quit handler removes the lock record. -/
theorem winnerOnQuit_lock_none (env : Env) (key : String) (fs : Fs) :
    winnerOnQuit env key fs (lockFilePath env (singletonId key env.user))
      = none := by
  unfold winnerOnQuit
  rw [eraseEntry_ne _ _ _ (lockFilePath_ne_commFilePath env _),
    eraseEntry_self]

/-- The winner quit handler removes the comm record. -/
theorem winnerOnQuit_comm_none (env : Env) (key : String) (fs : Fs) :
    winnerOnQuit env key fs (commFilePath env (singletonId key env.user))
      = none := by
  unfold winnerOnQuit
  rw [eraseEntry_self]

/-- Claim C8: a launch that became the WINNER has armed the quit
cleanup handler; running that handler removes both the lock record and
the comm record of the instance id, whatever the filesystem holds at
quit time, and a subsequent fault-free launch with the same key by the
same user on the same machine observes an absent lock and becomes the
WINNER again. -/
theorem winner_shutdown_cleanup_relaunch (env env2 : Env) (key : String)
    (fs0 fsQ : Fs)
    (hwin : (launchIndexJs env (some key) fs0).outcome = Outcome.winner)
    (hfail2 : env2.fails = noFailures) (hkey : ¬ key = "")
    (huser : env2.user = env.user) (hwd : env2.workDir = env.workDir) :
    (launchIndexJs env (some key) fs0).onQuitArmed = true
    ∧ winnerOnQuit env key fsQ (lockFilePath env (singletonId key env.user))
        = none
    ∧ winnerOnQuit env key fsQ (commFilePath env (singletonId key env.user))
        = none
    ∧ (launchIndexJs env2 (some key) (winnerOnQuit env key fsQ)).outcome
        = Outcome.winner
    ∧ (launchIndexJs env2 (some key)
        (winnerOnQuit env key fsQ)).windowCreated = true := by
  have hpath : lockFilePath env2 (singletonId key env2.user)
      = lockFilePath env (singletonId key env.user) := by
    rw [huser]
    unfold lockFilePath locksDir
    rw [hwd]
  have habsent : winnerOnQuit env key fsQ
      (lockFilePath env2 (singletonId key env2.user)) = none := by
    rw [hpath]
    exact winnerOnQuit_lock_none env key fsQ
  have hre := launch_winner_absent_eq env2 key (winnerOnQuit env key fsQ)
    hfail2 hkey habsent
  refine ⟨launch_winner_armed env key fs0 hwin,
    winnerOnQuit_lock_none env key fsQ,
    winnerOnQuit_comm_none env key fsQ, ?_, ?_⟩ <;> rw [hre]

set_option maxRecDepth 100000 in
/-- Witness for claim C8 at the concrete winner lifecycle scenario. -/
theorem winner_shutdown_cleanup_relaunch_witness :
    (launchIndexJs envWinnerA (some "demo") fsEmpty).outcome = Outcome.winner
    ∧ winnerOnQuit envWinnerA "demo" fsQuitDemo
        (lockFilePath envWinnerA (singletonId "demo" "erin")) = none
    ∧ winnerOnQuit envWinnerA "demo" fsQuitDemo
        (commFilePath envWinnerA (singletonId "demo" "erin")) = none
    ∧ (launchIndexJs envWinnerB (some "demo")
        (winnerOnQuit envWinnerA "demo" fsQuitDemo)).outcome
        = Outcome.winner := by
  have hw : (launchIndexJs envWinnerA (some "demo") fsEmpty).outcome
      = Outcome.winner := rfl
  have h := winner_shutdown_cleanup_relaunch envWinnerA envWinnerB "demo"
    fsEmpty fsQuitDemo hw rfl (by decide) rfl rfl
  exact ⟨hw, h.2.1, h.2.2.1, h.2.2.2.1⟩

/-- Claim C3, amended: the comm-channel send of src/index.js line 326
writes the comm record to exactly the token focus followed by a
newline, creating the record if absent and replacing any prior content
(fs.writeFileSync truncates; it does not append). -/
theorem commSend_writes_single_focus (fs : Fs) (p : String) :
    commSend fs p p = some (FsEntry.file "focus\n")
    ∧ (commActions "focus\n").filter (fun t => t == "focus") = ["focus"] :=
  ⟨setFile_self fs p "focus\n", by decide⟩

/-- Claim C3 counterexample: with the prior undrained token focus
already in the comm record, a send leaves the record holding the single
token again, not the prior content followed by the appended token:
fs.writeFileSync overwrites rather than appends. -/
theorem commSend_overwrites_cex :
    commSend (setFile fsEmpty "/tmp/electron-hta/comms/c" "focus\n")
      "/tmp/electron-hta/comms/c" "/tmp/electron-hta/comms/c"
      = some (FsEntry.file "focus\n")
    ∧ ¬ ("focus\n" : String) = "focus\n" ++ "focus\n" :=
  ⟨setFile_self _ _ _, by decide⟩

/-- Membership in the dispatch positions of the drain loop: exactly the
positions of the action list whose token is focus. -/
theorem mem_focusIndices (actions : List String) (i : Nat) :
    i ∈ focusIndices actions ↔
      (i < actions.length ∧ actions.getD i "" = "focus") := by
  unfold focusIndices
  simp [List.mem_filter, List.mem_range]

/-- The dispatch positions are strictly increasing. -/
theorem focusIndices_pairwise (actions : List String) :
    List.Pairwise (· < ·) (focusIndices actions) :=
  List.Pairwise.filter _ (List.pairwise_lt_range _)

/-- Claim C6: a drain of the comm record reads the full content,
invokes the focus handler exactly at the positions whose token is focus
(once per focus token, in increasing file order, ignoring empty and
unknown tokens), and deletes the record; the same holds for every watch
event, so the record is gone from the filesystem any later event
observes. -/
theorem comm_drain_dispatch_spec (fs : Fs) (path content : String)
    (h : fs path = some (FsEntry.file content)) :
    (∀ i, i ∈ (onCommFileChange fs path).1 ↔
      (i < (commActions content).length
        ∧ (commActions content).getD i "" = "focus"))
    ∧ List.Pairwise (· < ·) (onCommFileChange fs path).1
    ∧ (onCommFileChange fs path).1.Nodup
    ∧ (onCommFileChange fs path).2 path = none
    ∧ (∀ fs2 c, (commEventStep path fs2 c).2 path = none
        ∧ ∀ i, i ∈ (commEventStep path fs2 c).1 ↔
          (i < (commActions c).length
            ∧ (commActions c).getD i "" = "focus")) := by
  have hread : readFileD fs path = content := by
    unfold readFileD
    rw [h]
  refine ⟨?_, ?_, ?_, ?_, ?_⟩
  · intro i
    unfold onCommFileChange
    rw [hread]
    exact mem_focusIndices _ i
  · unfold onCommFileChange
    exact focusIndices_pairwise _
  · unfold onCommFileChange
    exact (List.nodup_range _).filter _
  · unfold onCommFileChange
    exact eraseEntry_self _ _
  · intro fs2 c
    have hr2 : readFileD (setFile fs2 path c) path = c := by
      unfold readFileD
      rw [setFile_self]
    constructor
    · unfold commEventStep onCommFileChange
      exact eraseEntry_self _ _
    · intro i
      unfold commEventStep onCommFileChange
      rw [hr2]
      exact mem_focusIndices _ i

/-- Witness for claim C6 at a concrete record holding focus, an unknown
token, focus and a trailing empty segment: the handler fires exactly at
positions 0 and 2 and the record is deleted. -/
theorem comm_drain_dispatch_spec_witness :
    fsCommDemo "/tmp/electron-hta/comms/c"
      = some (FsEntry.file "focus\nquit\nfocus\n")
    ∧ (onCommFileChange fsCommDemo "/tmp/electron-hta/comms/c").1 = [0, 2]
    ∧ (onCommFileChange fsCommDemo "/tmp/electron-hta/comms/c").2
        "/tmp/electron-hta/comms/c" = none := by
  refine ⟨setFile_self _ _ _, by decide, ?_⟩
  exact (comm_drain_dispatch_spec fsCommDemo "/tmp/electron-hta/comms/c"
    "focus\nquit\nfocus\n" (setFile_self _ _ _)).2.2.2.1

/-- The hex rendering of a byte list has two characters per byte. -/
theorem length_flatten_byteToHex (bs : List Nat) :
    ((bs.map byteToHex).flatten).length = 2 * bs.length := by
  induction bs with
  | nil => rfl
  | cons b rest ih =>
    simp only [List.map_cons, List.flatten_cons, List.length_append,
      byteToHex, List.length_cons, List.length_nil, List.length_map, ih]
    omega

/-- The MD5 digest always holds sixteen bytes. -/
theorem md5Bytes_length (msg : List Nat) : (md5Bytes msg).length = 16 := by
  unfold md5Bytes wordLEBytes
  simp

/-- Every hex digit character is drawn from the sixteen-character
alphabet. -/
theorem hexDigit_mem (n : Nat) : hexDigit n ∈ hexRef := by
  unfold hexDigit
  by_cases h : n < hexRef.length
  · rw [List.getD_eq_getElem hexRef '0' h]
    exact List.getElem_mem h
  · rw [List.getD_eq_default hexRef '0' (Nat.le_of_not_lt h)]
    decide

/-- Every character of a hex-rendered byte list is drawn from the
sixteen-character alphabet. -/
theorem mem_bytesToHex_hexRef (bs : List Nat) (c : Char)
    (hc : c ∈ (bytesToHex bs).data) : c ∈ hexRef := by
  change c ∈ (bs.map byteToHex).flatten at hc
  simp only [List.mem_flatten, List.mem_map] at hc
  obtain ⟨l, ⟨b, _, rfl⟩, hcl⟩ := hc
  simp only [byteToHex, List.mem_cons, List.not_mem_nil, or_false] at hcl
  rcases hcl with rfl | rfl
  · exact hexDigit_mem _
  · exact hexDigit_mem _

set_option maxRecDepth 100000 in
/-- Claim C7, amended: the md5-based instance id of src/index.js is a
pure deterministic function of the key and the username, always a
32-character token over the lowercase hex alphabet (hence free of path
separators and usable as a single path segment), and concrete distinct
users receive distinct ids whenever their digests differ, as in the
demo/alice versus demo/bob instance; universal distinctness for all
user pairs is only collision-freedom of a 128-bit digest, and the
part_002 variant derives no id at all from the user. -/
theorem singletonId_deterministic_hex_safe (k1 k2 u1 u2 key user : String)
    (hk : k1 = k2) (hu : u1 = u2) :
    singletonId k1 u1 = singletonId k2 u2
    ∧ (singletonId key user).length = 32
    ∧ (∀ c ∈ (singletonId key user).data,
        c ∈ hexRef ∧ ¬ c = '/' ∧ ¬ c = '\\')
    ∧ ¬ singletonId "demo" "alice" = singletonId "demo" "bob" := by
  refine ⟨by rw [hk, hu], ?_, ?_, by decide⟩
  · show ((md5Bytes (strBytes (key ++ "." ++ user))).map
      byteToHex).flatten.length = 32
    rw [length_flatten_byteToHex, md5Bytes_length]
  · intro c hc
    have h1 := mem_bytesToHex_hexRef _ c hc
    have h2 : ∀ x ∈ hexRef, ¬ x = '/' ∧ ¬ x = '\\' := by decide
    exact ⟨h1, (h2 c h1).1, (h2 c h1).2⟩

set_option maxRecDepth 100000 in
/-- Witness for the amended claim C7 at concrete inputs. -/
theorem singletonId_deterministic_hex_safe_witness :
    ("demo" : String) = "demo"
    ∧ ("alice" : String) = "alice"
    ∧ (singletonId "demo" "alice").length = 32 := by
  exact ⟨rfl, rfl,
    (singletonId_deterministic_hex_safe "demo" "demo" "alice" "alice"
      "demo" "alice" rfl rfl).2.1⟩

/-- Claim C7 counterexample: in the src/unnamed/part_002 variant the
path segment scoping the lock is the raw singleton key, so two
different users with the same key share the same id, and a key holding
a path separator flows into the lock path unchanged. -/
theorem part002_id_not_user_scoped_cex :
    part002InstanceSegment "demo" "alice"
      = part002InstanceSegment "demo" "bob"
    ∧ ¬ ("alice" : String) = "bob"
    ∧ '/' ∈ (part002InstanceSegment "a/b" "eve").data
    ∧ part002LockFile "/tmp" "a/b" = "/tmp/electron-hta/locks/a/b" := by
  refine ⟨rfl, by decide, by decide, rfl⟩

/-- Claim C9: the zoom clamp of src/index.js line 192 maps NaN and 0 to
1 (both are falsy; an absent option is the yargs default 1, also mapped
to 1), values above 5 to 5, nonzero values below one quarter (every
negative value included) to one quarter, passes values inside the
interval through, and always lands in the closed interval from one
quarter to 5. -/
theorem zoomFactor_clamp_spec :
    zoomFactor JsNum.nan = 1
    ∧ zoomFactor (JsNum.num 0) = 1
    ∧ zoomFactor (JsNum.num 1) = 1
    ∧ (∀ q : ℚ, q > 5 → zoomFactor (JsNum.num q) = 5)
    ∧ (∀ q : ℚ, ¬ q = 0 → q < 1 / 4 → zoomFactor (JsNum.num q) = 1 / 4)
    ∧ (∀ q : ℚ, 1 / 4 ≤ q → q ≤ 5 → zoomFactor (JsNum.num q) = q)
    ∧ (∀ z : JsNum, 1 / 4 ≤ zoomFactor z ∧ zoomFactor z ≤ 5) := by
  refine ⟨rfl, by norm_num [zoomFactor], by norm_num [zoomFactor],
    ?_, ?_, ?_, ?_⟩
  · intro q h
    simp only [zoomFactor]
    rw [if_neg (by intro h0; rw [h0] at h; norm_num at h), if_pos h]
  · intro q h0 h
    simp only [zoomFactor]
    rw [if_neg h0, if_neg (by intro h5; linarith), if_pos h]
  · intro q h1 h5
    simp only [zoomFactor]
    rw [if_neg (by intro h0; rw [h0] at h1; norm_num at h1),
      if_neg (by intro hx; linarith), if_neg (by intro hx; linarith)]
  · intro z
    cases z with
    | nan =>
      constructor <;> norm_num [zoomFactor]
    | num q =>
      simp only [zoomFactor]
      split_ifs with h0 h5 h4
      · constructor <;> norm_num
      · constructor <;> norm_num
      · constructor <;> norm_num
      · exact ⟨not_lt.mp h4, not_lt.mp h5⟩

/-- Witness for claim C9 at concrete zoom values. -/
theorem zoomFactor_clamp_spec_witness :
    ((7 : ℚ) > 5 ∧ zoomFactor (JsNum.num 7) = 5)
    ∧ (¬ (-3 : ℚ) = 0 ∧ (-3 : ℚ) < 1 / 4
        ∧ zoomFactor (JsNum.num (-3)) = 1 / 4)
    ∧ ((1 : ℚ) / 4 ≤ 2 ∧ (2 : ℚ) ≤ 5 ∧ zoomFactor (JsNum.num 2) = 2) := by
  refine ⟨⟨by norm_num, ?_⟩, ⟨by norm_num, by norm_num, ?_⟩,
    ⟨by norm_num, by norm_num, ?_⟩⟩
  · exact zoomFactor_clamp_spec.2.2.2.1 7 (by norm_num)
  · exact zoomFactor_clamp_spec.2.2.2.2.1 (-3) (by norm_num) (by norm_num)
  · exact zoomFactor_clamp_spec.2.2.2.2.2.1 2 (by norm_num) (by norm_num)

/-- Claim C10: the window reference is null before creation and after
the close handler runs; the loadURL helper with a null reference
performs no window operation and does not fault; the focus handler with
a null reference performs exactly the application-level focus, no
window operation, and does not fault; and both handlers never fault on
any state. -/
theorem win_reference_guarded :
    initialWinState.win = none
    ∧ (∀ st : WinState, (closeHandler st).win = none)
    ∧ (∀ (st : WinState) (url : String), st.win = none →
        loadURLHelper st url = Except.ok st)
    ∧ (∀ (st : WinState) (p : Bool), st.win = none →
        focusApp p st
          = Except.ok { st with appFocusCalls := st.appFocusCalls + 1 })
    ∧ (∀ (st : WinState) (p : Bool),
        ¬ focusApp p st = Except.error JsFault.nullDeref)
    ∧ (∀ (st : WinState) (url : String),
        ¬ loadURLHelper st url = Except.error JsFault.nullDeref) := by
  refine ⟨rfl, fun st => rfl, ?_, ?_, ?_, ?_⟩
  · intro st url h
    unfold loadURLHelper
    rw [h]
    rfl
  · intro st p h
    unfold focusApp
    simp only [h]
    rfl
  · intro st p
    cases hw : st.win with
    | none => simp [focusApp, hw]
    | some hdl => simp [focusApp, hw, derefWin]
  · intro st url
    cases hw : st.win with
    | none => simp [loadURLHelper, hw]
    | some hdl => simp [loadURLHelper, hw, derefWin]

/-- Witness for claim C10: a focus command arriving in the initial
state, where no window exists yet, performs only the application-level
focus. -/
theorem win_reference_guarded_witness :
    initialWinState.win = none
    ∧ focusApp false initialWinState
        = Except.ok { win := none, appFocusCalls := 1, winOps := [] } := by
  exact ⟨rfl,
    win_reference_guarded.2.2.2.1 initialWinState false rfl⟩
